import Mathlib

/-!
Verification of the data-access and answer-aggregation layer of the
online-quiz-platform repository (`DatabaseService` in the backend service
file).  The relational store is embedded shallowly: each table is a list of
rows kept in insertion order (the order an append-only Postgres table yields
for `SELECT` without `ORDER BY`), serial primary keys are modelled by
per-table counters, and each method of `DatabaseService` becomes a pure
function on this state.  SQL text construction is modelled separately, as
string-building functions, to reason about which queries interpolate
caller-supplied values.
-/

namespace QuizDB

/-- A row of the `Room` table: `room_id` (serial key), `event_key`,
`room_name`, `presenter_id`. -/
structure Room where
  room_id : Nat
  event_key : String
  room_name : String
  presenter_id : String
deriving Repr, DecidableEq

/-- A row of the `Quiz` table: `quiz_id` (serial key), `max_duration`,
`title`, `room_id` (foreign key into `Room`). -/
structure Quiz where
  quiz_id : Nat
  max_duration : Int
  title : String
  room_id : Nat
deriving Repr, DecidableEq

/-- A row of the `Question` table: `question_id` (serial key),
`question_label`, optional `correct_answer` (absent for open-ended
questions), `quiz_id` (foreign key into `Quiz`). -/
structure Question where
  question_id : Nat
  question_label : String
  correct_answer : Option String
  quiz_id : Nat
deriving Repr, DecidableEq

/-- A row of the `Choice` table: `choice_id` (serial key), `choice_label`,
`question_id` (foreign key into `Question`). -/
structure Choice where
  choice_id : Nat
  choice_label : String
  question_id : Nat
deriving Repr, DecidableEq

/-- A row of the `AnswerEntry` table: `question_id`, `participant_id`,
`answer_label`.  No serial key appears in any query of the service. -/
structure AnswerEntry where
  question_id : Nat
  participant_id : String
  answer_label : String
deriving Repr, DecidableEq

/-- The database state: one insertion-ordered list per table, plus the next
serial id for each table that has one. -/
structure DB where
  rooms : List Room
  quizzes : List Quiz
  questions : List Question
  choices : List Choice
  answers : List AnswerEntry
  nextRoomId : Nat
  nextQuizId : Nat
  nextQuestionId : Nat
  nextChoiceId : Nat
deriving Repr, DecidableEq

/-- One element of the aggregated response built by
`getAllAnswersByEventKey`: the object pushed onto `allAnswers` for each
question. -/
structure Bundle where
  questionId : Nat
  questionLabel : String
  choices : List String
  answers : List String
deriving Repr, DecidableEq

/-! ### Orderings used by `ORDER BY` clauses -/

/-- `ORDER BY qn.question_id` (ascending). -/
def qIdLE (a b : Question) : Prop := a.question_id ≤ b.question_id

instance : DecidableRel qIdLE := fun a b =>
  inferInstanceAs (Decidable (a.question_id ≤ b.question_id))

instance : IsTotal Question qIdLE := ⟨fun a b => Nat.le_total a.question_id b.question_id⟩

instance : IsTrans Question qIdLE := ⟨fun _ _ _ => Nat.le_trans⟩

/-- `ORDER BY question_id DESC`. -/
def qIdGE (a b : Question) : Prop := b.question_id ≤ a.question_id

instance : DecidableRel qIdGE := fun a b =>
  inferInstanceAs (Decidable (b.question_id ≤ a.question_id))

instance : IsTotal Question qIdGE := ⟨fun a b => Nat.le_total b.question_id a.question_id⟩

instance : IsTrans Question qIdGE := ⟨fun _ _ _ h h' => Nat.le_trans h' h⟩

/-- `ORDER BY quiz_id DESC`. -/
def quizIdGE (a b : Quiz) : Prop := b.quiz_id ≤ a.quiz_id

instance : DecidableRel quizIdGE := fun a b =>
  inferInstanceAs (Decidable (b.quiz_id ≤ a.quiz_id))

instance : IsTotal Quiz quizIdGE := ⟨fun a b => Nat.le_total b.quiz_id a.quiz_id⟩

instance : IsTrans Quiz quizIdGE := ⟨fun _ _ _ h h' => Nat.le_trans h' h⟩

/-- `ORDER BY room_id DESC` — not issued by the code; used only to state the
re-read query that claim C6 attributes to `createRoom`. -/
def roomIdGE (a b : Room) : Prop := b.room_id ≤ a.room_id

instance : DecidableRel roomIdGE := fun a b =>
  inferInstanceAs (Decidable (b.room_id ≤ a.room_id))

instance : IsTotal Room roomIdGE := ⟨fun a b => Nat.le_total b.room_id a.room_id⟩

instance : IsTrans Room roomIdGE := ⟨fun _ _ _ h h' => Nat.le_trans h' h⟩

/-! ### Read operations -/

/-- The `WHERE` clause of `getAllQuestionsByEventKey`: the question joins
(via its quiz) to a room whose `event_key` equals the parameter. -/
def questionInRoom (db : DB) (eventKey : String) (qn : Question) : Bool :=
  db.quizzes.any fun qz =>
    qn.quiz_id == qz.quiz_id &&
      db.rooms.any fun r => r.event_key == eventKey && r.room_id == qz.room_id

/-- `getAllQuestionsByEventKey`: three-table join filtered on the event key,
`ORDER BY qn.question_id`. -/
def getAllQuestionsByEventKey (db : DB) (eventKey : String) : List Question :=
  List.insertionSort qIdLE (db.questions.filter (questionInRoom db eventKey))

/-- `getAllChoicesByQuestion`: `SELECT * FROM Choice WHERE question_id = $1`. -/
def getAllChoicesByQuestion (db : DB) (questionId : Nat) : List Choice :=
  db.choices.filter fun c => c.question_id == questionId

/-- `getAllAnswersByQuestion`: `SELECT * FROM AnswerEntry WHERE question_id = $1`. -/
def getAllAnswersByQuestion (db : DB) (questionId : Nat) : List AnswerEntry :=
  db.answers.filter fun a => a.question_id == questionId

/-- `getRoomByEventKey`: `SELECT * FROM Room WHERE event_key = $1`. -/
def getRoomByEventKey (db : DB) (eventKey : String) : List Room :=
  db.rooms.filter fun r => r.event_key == eventKey

/-! ### Write operations -/

/-- `createAnswer`: one unconditional `INSERT` into `AnswerEntry`.  No check
that the question exists, that the label matches a choice, or that the
participant has not answered before. -/
def createAnswer (db : DB) (questionId : Nat) (participantId answerLabel : String) : DB :=
  { db with answers := db.answers ++ [⟨questionId, participantId, answerLabel⟩] }

/-- The loop body of `generateUniqueEventKey`: draw candidate `gen i`, query
`Room` for that key, retry on collision.  `gen` models the stream of
`uuidv4().slice(0, 8)` draws; `fuel` bounds the unbounded `do … while` so the
function is total (`none` means the loop had not exited within `fuel`
iterations). -/
def generateKeyLoop (db : DB) (gen : Nat → String) : Nat → Nat → Option String
  | _, 0 => none
  | i, fuel + 1 =>
    if (db.rooms.filter fun r => r.event_key == gen i).length > 0 then
      generateKeyLoop db gen (i + 1) fuel
    else
      some (gen i)

/-- `generateUniqueEventKey`, fuelled. -/
def generateUniqueEventKey (db : DB) (gen : Nat → String) (fuel : Nat) : Option String :=
  generateKeyLoop db gen 0 fuel

/-- `createRoom`: `INSERT` the row, then re-read with
`SELECT * FROM Room WHERE event_key = $1` (no `ORDER BY`, no `LIMIT`). -/
def createRoom (db : DB) (eventKey name presenterId : String) : DB × List Room :=
  let row : Room := ⟨db.nextRoomId, eventKey, name, presenterId⟩
  let db' := { db with rooms := db.rooms ++ [row], nextRoomId := db.nextRoomId + 1 }
  (db', db'.rooms.filter fun r => r.event_key == eventKey)

/-- `createQuiz`: `INSERT` the row, then re-read with
`SELECT * FROM Quiz WHERE room_id = $1 ORDER BY quiz_id DESC LIMIT 1`. -/
def createQuiz (db : DB) (maxDuration : Int) (title : String) (roomId : Nat) :
    DB × List Quiz :=
  let row : Quiz := ⟨db.nextQuizId, maxDuration, title, roomId⟩
  let db' := { db with quizzes := db.quizzes ++ [row], nextQuizId := db.nextQuizId + 1 }
  (db', (List.insertionSort quizIdGE (db'.quizzes.filter fun q => q.room_id == roomId)).take 1)

/-- `createQuestion`: `INSERT` the row — one statement listing
`correct_answer` when it is defined, another omitting the column when it is
`undefined` — then re-read with
`SELECT * FROM Question WHERE quiz_id = $1 ORDER BY question_id DESC LIMIT 1`. -/
def createQuestion (db : DB) (questionLabel : String) (correctAnswer : Option String)
    (quizId : Nat) : DB × List Question :=
  let db' :=
    match correctAnswer with
    | some a =>
      { db with questions := db.questions ++ [⟨db.nextQuestionId, questionLabel, some a, quizId⟩],
                nextQuestionId := db.nextQuestionId + 1 }
    | none =>
      { db with questions := db.questions ++ [⟨db.nextQuestionId, questionLabel, none, quizId⟩],
                nextQuestionId := db.nextQuestionId + 1 }
  (db', (List.insertionSort qIdGE (db'.questions.filter fun q => q.quiz_id == quizId)).take 1)

/-- `createChoices`: one `INSERT` per label, issued sequentially in list
order. -/
def createChoices (db : DB) (questionId : Nat) (choiceLabels : List String) : DB :=
  choiceLabels.foldl
    (fun d lbl =>
      { d with choices := d.choices ++ [⟨d.nextChoiceId, lbl, questionId⟩],
               nextChoiceId := d.nextChoiceId + 1 })
    db

/-- `createQuestionAndChoices`: create the question, then — when
`choiceLabels` is defined — read `question.rows[0].question_id` from the
re-read result and insert the choices.  `rows[0]` on an empty result throws
in the source, hence the `Option`. -/
def createQuestionAndChoices (db : DB) (questionLabel : String)
    (correctAnswer : Option String) (quizId : Nat)
    (choiceLabels : Option (List String)) : Option (DB × List Question) :=
  let (db1, res) := createQuestion db questionLabel correctAnswer quizId
  match choiceLabels with
  | none => some (db1, res)
  | some labels =>
    match res with
    | [] => none
    | q :: _ => some (createChoices db1 q.question_id labels, res)

/-- `updateQuiz`: `UPDATE Quiz SET max_duration = $1, title = $2 WHERE
quiz_id = $3`, then re-read with `SELECT * FROM Quiz WHERE quiz_id = $1
LIMIT 1`. -/
def updateQuiz (db : DB) (quizId : Nat) (maxDuration : Int) (title : String) :
    DB × List Quiz :=
  let db' := { db with
    quizzes := db.quizzes.map fun q =>
      if q.quiz_id == quizId then { q with max_duration := maxDuration, title := title } else q }
  (db', (db'.quizzes.filter fun q => q.quiz_id == quizId).take 1)

/-- `updateQuestion`: when `correctAnswer` is `undefined`, `UPDATE … SET
question_label = $1`; otherwise `UPDATE … SET question_label = $1,
correct_answer = $2`.  Then re-read with `SELECT * FROM Question WHERE
question_id = $1 LIMIT 1`. -/
def updateQuestion (db : DB) (questionId : Nat) (questionLabel : String)
    (correctAnswer : Option String) : DB × List Question :=
  let db' :=
    match correctAnswer with
    | none =>
      { db with questions := db.questions.map fun q =>
          if q.question_id == questionId then { q with question_label := questionLabel } else q }
    | some a =>
      { db with questions := db.questions.map fun q =>
          if q.question_id == questionId then
            { q with question_label := questionLabel, correct_answer := some a }
          else q }
  (db', (db'.questions.filter fun q => q.question_id == questionId).take 1)

/-! ### Aggregation -/

/-- `getAllAnswersByEventKey`: resolve the event key to the room's questions,
then for each question (sequentially, preserving question order) collect its
choice labels — guarded by `rowCount > 0` in the source — and its answer
labels, and push one bundle. -/
def getAllAnswersByEventKey (db : DB) (eventKey : String) : List Bundle :=
  (getAllQuestionsByEventKey db eventKey).map fun qn =>
    { questionId := qn.question_id
      questionLabel := qn.question_label
      choices :=
        if (getAllChoicesByQuestion db qn.question_id).length > 0 then
          (getAllChoicesByQuestion db qn.question_id).map fun c => c.choice_label
        else []
      answers := (getAllAnswersByQuestion db qn.question_id).map fun a => a.answer_label }

/-! ### SQL text construction

Each function below builds the SQL string a method of `DatabaseService`
sends (whitespace normalised; `$1`, `$2`, … are placeholders filled by the
driver from a separate parameter list, so only string concatenation below
puts a value into the text).  Every method interpolates the configured
schema name; the functions take it as their first argument. -/

/-- `getAllFromTable` (debug helper): the table name argument is
concatenated directly into the text. -/
def getAllFromTableText (schemaName tableName : String) : String :=
  "SELECT * FROM " ++ schemaName ++ "." ++ tableName

/-- `getAllQuestionsByEventKey`: the event key travels as parameter `$1`;
the text mentions no argument. -/
def getAllQuestionsByEventKeyCall (schemaName eventKey : String) :
    String × List String :=
  ("SELECT qn.question_id, qn.question_label, qn.correct_answer, qn.quiz_id FROM " ++
      schemaName ++ ".Question qn, " ++ schemaName ++ ".Quiz qz, " ++ schemaName ++
      ".Room r WHERE r.event_key = $1 AND r.room_id = qz.room_id AND qn.quiz_id = qz.quiz_id ORDER BY qn.question_id",
   [eventKey])

/-- `getAllChoicesByQuestion`. -/
def getAllChoicesByQuestionCall (schemaName questionId : String) :
    String × List String :=
  ("SELECT * FROM " ++ schemaName ++ ".Choice c WHERE c.question_id = $1;", [questionId])

/-- `getAllAnswersByQuestion`. -/
def getAllAnswersByQuestionCall (schemaName questionId : String) :
    String × List String :=
  ("SELECT * FROM " ++ schemaName ++ ".AnswerEntry WHERE question_id = $1", [questionId])

/-- `createAnswer`. -/
def createAnswerCall (schemaName questionId participantId answerLabel : String) :
    String × List String :=
  ("INSERT INTO " ++ schemaName ++
      ".AnswerEntry (question_id, participant_id, answer_label) VALUES ($1,$2,$3);",
   [questionId, participantId, answerLabel])

/-- The uniqueness check inside `generateUniqueEventKey`: the candidate key
is concatenated into the text between single quotes, not passed as a
parameter. -/
def uniquenessCheckText (schemaName eventKey : String) : String :=
  "SELECT event_key FROM " ++ schemaName ++ ".Room WHERE event_key = '" ++ eventKey ++ "'"

/-- `createRoom` issues two statements: the `INSERT` and the re-read. -/
def createRoomCalls (schemaName eventKey name presenterId : String) :
    List (String × List String) :=
  [("INSERT INTO " ++ schemaName ++
      ".Room (event_key, room_name, presenter_id) VALUES ($1,$2,$3);",
    [eventKey, name, presenterId]),
   ("SELECT * FROM " ++ schemaName ++ ".Room WHERE event_key = $1", [eventKey])]

/-- `createQuiz` issues two statements. -/
def createQuizCalls (schemaName maxDuration title roomId : String) :
    List (String × List String) :=
  [("INSERT INTO " ++ schemaName ++ ".Quiz (max_duration, title, room_id) VALUES ($1,$2,$3);",
    [maxDuration, title, roomId]),
   ("SELECT * FROM " ++ schemaName ++ ".Quiz WHERE room_id = $1 ORDER BY quiz_id DESC LIMIT 1",
    [roomId])]

/-- `createQuestion` issues two statements; which `INSERT` text is used
depends only on whether `correctAnswer` is defined, never on its content. -/
def createQuestionCalls (schemaName questionLabel : String)
    (correctAnswer : Option String) (quizId : String) : List (String × List String) :=
  (match correctAnswer with
   | some a =>
     ("INSERT INTO " ++ schemaName ++
        ".Question (question_label, correct_answer, quiz_id) VALUES ($1,$2,$3);",
      [questionLabel, a, quizId])
   | none =>
     ("INSERT INTO " ++ schemaName ++ ".Question (question_label, quiz_id) VALUES ($1,$2);",
      [questionLabel, quizId])) ::
  [("SELECT * FROM " ++ schemaName ++
      ".Question WHERE quiz_id = $1 ORDER BY question_id DESC LIMIT 1", [quizId])]

/-- `createChoices`: one `INSERT` per label, all with the same text. -/
def createChoicesCalls (schemaName questionId : String) (choiceLabels : List String) :
    List (String × List String) :=
  choiceLabels.map fun lbl =>
    ("INSERT INTO " ++ schemaName ++ ".Choice (choice_label, question_id) VALUES ($1,$2);",
     [lbl, questionId])

/-- `updateQuiz` issues two statements. -/
def updateQuizCalls (schemaName quizId maxDuration title : String) :
    List (String × List String) :=
  [("UPDATE " ++ schemaName ++ ".Quiz SET max_duration = $1, title = $2 WHERE quiz_id = $3",
    [maxDuration, title, quizId]),
   ("SELECT * FROM " ++ schemaName ++ ".Quiz WHERE quiz_id = $1 LIMIT 1", [quizId])]

/-- `updateQuestion` issues two statements; the `UPDATE` text depends only
on whether `correctAnswer` is defined. -/
def updateQuestionCalls (schemaName questionId questionLabel : String)
    (correctAnswer : Option String) : List (String × List String) :=
  (match correctAnswer with
   | none =>
     ("UPDATE " ++ schemaName ++ ".Question SET question_label = $1 WHERE question_id = $2",
      [questionLabel, questionId])
   | some a =>
     ("UPDATE " ++ schemaName ++
        ".Question SET question_label = $1, correct_answer = $2 WHERE question_id = $3",
      [questionLabel, a, questionId])) ::
  [("SELECT * FROM " ++ schemaName ++ ".Question WHERE question_id = $1 LIMIT 1",
    [questionId])]

/-- `getRoomByEventKey`. -/
def getRoomByEventKeyCall (schemaName eventKey : String) : String × List String :=
  ("SELECT * FROM " ++ schemaName ++ ".Room WHERE event_key = $1", [eventKey])

/-- `getAllRoomsByPresenter`. -/
def getAllRoomsByPresenterCall (schemaName presenterId : String) : String × List String :=
  ("SELECT * FROM " ++ schemaName ++ ".Room WHERE presenter_id = $1", [presenterId])

/-- `getAllQuizzesByEventKey`. -/
def getAllQuizzesByEventKeyCall (schemaName eventKey : String) : String × List String :=
  ("SELECT q.quiz_id, q.max_duration, q.title, q.room_id FROM " ++ schemaName ++
      ".Quiz q, " ++ schemaName ++ ".Room r WHERE r.event_key = $1 AND r.room_id = q.room_id",
   [eventKey])

/-- `getAllAnswersByQuiz`. -/
def getAllAnswersByQuizCall (schemaName quizId : String) : String × List String :=
  ("SELECT a.answer_label, a.question_id, a.participant_id FROM " ++ schemaName ++
      ".AnswerEntry a, " ++ schemaName ++
      ".Question q WHERE q.quiz_id = $1 AND q.question_id = a.question_id ",
   [quizId])

/-! ### Helper lemmas -/

/-- The `rowCount > 0` guard around the choice-mapping loop is semantically
inert: mapping over an empty row set yields the empty list anyway. -/
lemma if_length_pos_map {α β : Type} (f : α → β) (l : List α) :
    (if l.length > 0 then l.map f else []) = l.map f := by
  cases l <;> simp

/-- Unfold a membership in the aggregation result to the underlying
question row. -/
lemma mem_aggregation_iff (db : DB) (eventKey : String) (b : Bundle) :
    b ∈ getAllAnswersByEventKey db eventKey ↔
      ∃ qn, qn ∈ db.questions ∧ questionInRoom db eventKey qn = true ∧
        b = { questionId := qn.question_id
              questionLabel := qn.question_label
              choices := (getAllChoicesByQuestion db qn.question_id).map Choice.choice_label
              answers := (getAllAnswersByQuestion db qn.question_id).map AnswerEntry.answer_label } := by
  unfold getAllAnswersByEventKey getAllQuestionsByEventKey
  rw [List.mem_map]
  constructor
  · rintro ⟨qn, hqn, rfl⟩
    rw [List.mem_insertionSort, List.mem_filter] at hqn
    exact ⟨qn, hqn.1, hqn.2, by rw [if_length_pos_map]⟩
  · rintro ⟨qn, hmem, hroom, rfl⟩
    exact ⟨qn, by rw [List.mem_insertionSort, List.mem_filter]; exact ⟨hmem, hroom⟩,
      by rw [if_length_pos_map]⟩

/-- If no room carries the event key, the join predicate rejects every
question. -/
lemma questionInRoom_eq_false_of_no_room (db : DB) (eventKey : String)
    (h : ∀ r ∈ db.rooms, r.event_key ≠ eventKey) (qn : Question) :
    questionInRoom db eventKey qn = false := by
  unfold questionInRoom
  rw [List.any_eq_false]
  intro qz _
  rw [Bool.and_eq_true, List.any_eq_true]
  rintro ⟨-, r, hr, hkey⟩
  rw [Bool.and_eq_true, beq_iff_eq] at hkey
  exact h r hr hkey.1

/-! ### C1 — aggregation shape -/

/-- C1: `getAllAnswersByEventKey` returns bundles ordered by question id
ascending, exactly one per question of the room with that event key (across
all its quizzes), each bundle carrying that question's label, its choice
labels, and all its submitted answer labels. -/
theorem aggregation_ordered_complete (db : DB) (eventKey : String) :
    List.Pairwise (fun a b : Bundle => a.questionId ≤ b.questionId)
      (getAllAnswersByEventKey db eventKey) ∧
    List.Perm ((getAllAnswersByEventKey db eventKey).map Bundle.questionId)
      ((db.questions.filter (questionInRoom db eventKey)).map Question.question_id) ∧
    ∀ b ∈ getAllAnswersByEventKey db eventKey,
      (∃ qn, qn ∈ db.questions ∧ questionInRoom db eventKey qn = true ∧
        b.questionId = qn.question_id ∧ b.questionLabel = qn.question_label) ∧
      b.choices = (getAllChoicesByQuestion db b.questionId).map Choice.choice_label ∧
      b.answers = (getAllAnswersByQuestion db b.questionId).map AnswerEntry.answer_label := by
  refine ⟨?_, ?_, ?_⟩
  · unfold getAllAnswersByEventKey
    have hs : List.Sorted qIdLE (getAllQuestionsByEventKey db eventKey) := by
      unfold getAllQuestionsByEventKey
      exact List.sorted_insertionSort qIdLE _
    exact hs.map _ (fun a b h => h)
  · unfold getAllAnswersByEventKey getAllQuestionsByEventKey
    rw [List.map_map]
    have h1 : List.map
        (Bundle.questionId ∘ fun qn =>
          ({ questionId := qn.question_id
             questionLabel := qn.question_label
             choices :=
               if (getAllChoicesByQuestion db qn.question_id).length > 0 then
                 (getAllChoicesByQuestion db qn.question_id).map fun c => c.choice_label
               else []
             answers := (getAllAnswersByQuestion db qn.question_id).map fun a =>
               a.answer_label } : Bundle))
        (List.insertionSort qIdLE (db.questions.filter (questionInRoom db eventKey))) =
        List.map Question.question_id
          (List.insertionSort qIdLE (db.questions.filter (questionInRoom db eventKey))) := rfl
    rw [h1]
    exact (List.perm_insertionSort qIdLE _).map Question.question_id
  · intro b hb
    rw [mem_aggregation_iff] at hb
    obtain ⟨qn, hmem, hroom, rfl⟩ := hb
    exact ⟨⟨qn, hmem, hroom, rfl, rfl⟩, rfl, rfl⟩

/-- C1 witness: concrete database with one room, one quiz, two questions. -/
theorem aggregation_ordered_complete_witness :
    (⟨2, "q2", ["A"], []⟩ : Bundle) ∈ getAllAnswersByEventKey
      ⟨[⟨1, "k1", "room", "p"⟩], [⟨1, 10, "t", 1⟩],
       [⟨2, "q2", none, 1⟩, ⟨1, "q1", none, 1⟩], [⟨1, "A", 2⟩],
       [⟨1, "u", "x"⟩], 2, 2, 3, 2⟩ "k1" →
    (⟨2, "q2", ["A"], []⟩ : Bundle).choices =
      (getAllChoicesByQuestion
        ⟨[⟨1, "k1", "room", "p"⟩], [⟨1, 10, "t", 1⟩],
         [⟨2, "q2", none, 1⟩, ⟨1, "q1", none, 1⟩], [⟨1, "A", 2⟩],
         [⟨1, "u", "x"⟩], 2, 2, 3, 2⟩ 2).map Choice.choice_label :=
  fun h =>
    ((aggregation_ordered_complete
      ⟨[⟨1, "k1", "room", "p"⟩], [⟨1, 10, "t", 1⟩],
       [⟨2, "q2", none, 1⟩, ⟨1, "q1", none, 1⟩], [⟨1, "A", 2⟩],
       [⟨1, "u", "x"⟩], 2, 2, 3, 2⟩ "k1").2.2 _ h).2.1

/-! ### C2 — answer multiplicity and order -/

/-- C2: each bundle's `answers` list is exactly the label of every
`AnswerEntry` row of that question, in table (insertion) order — so a
question with `N` stored answers, duplicates included, contributes exactly
`N` labels. -/
theorem aggregation_counts_answers_in_order (db : DB) (eventKey : String)
    (b : Bundle) (hb : b ∈ getAllAnswersByEventKey db eventKey) :
    b.answers = ((db.answers.filter fun a => a.question_id == b.questionId).map
      AnswerEntry.answer_label) ∧
    b.answers.length = db.answers.countP fun a => a.question_id == b.questionId := by
  rw [mem_aggregation_iff] at hb
  obtain ⟨qn, _, _, rfl⟩ := hb
  refine ⟨rfl, ?_⟩
  rw [List.length_map]
  unfold getAllAnswersByQuestion
  exact (List.countP_eq_length_filter _ _).symm

/-- C2 witness: a participant submits the same answer twice; both labels
appear, in order. -/
theorem aggregation_counts_answers_in_order_witness :
    (⟨1, "q1", [], ["4", "4"]⟩ : Bundle).answers.length =
      ([⟨1, "u", "4"⟩, ⟨1, "u", "4"⟩] : List AnswerEntry).countP
        (fun a => a.question_id == (1 : Nat)) :=
  (aggregation_counts_answers_in_order
    ⟨[⟨1, "k1", "room", "p"⟩], [⟨1, 10, "t", 1⟩], [⟨1, "q1", none, 1⟩], [],
     [⟨1, "u", "4"⟩, ⟨1, "u", "4"⟩], 2, 2, 2, 1⟩ "k1"
    ⟨1, "q1", [], ["4", "4"]⟩ (by decide)).2

/-! ### C3 — empty cases -/

/-- C3: a question with no choices and no answers still yields its bundle
with both lists empty; a room with no questions yields `[]`; an unknown
event key yields `[]` (a value, not an error — the function is total). -/
theorem aggregation_empty_cases (db : DB) (eventKey : String) :
    (∀ qn ∈ getAllQuestionsByEventKey db eventKey,
      getAllChoicesByQuestion db qn.question_id = [] →
      getAllAnswersByQuestion db qn.question_id = [] →
      (⟨qn.question_id, qn.question_label, [], []⟩ : Bundle) ∈
        getAllAnswersByEventKey db eventKey) ∧
    (getAllQuestionsByEventKey db eventKey = [] →
      getAllAnswersByEventKey db eventKey = []) ∧
    ((∀ r ∈ db.rooms, r.event_key ≠ eventKey) →
      getAllAnswersByEventKey db eventKey = []) := by
  refine ⟨?_, ?_, ?_⟩
  · intro qn hqn hc ha
    rw [mem_aggregation_iff]
    unfold getAllQuestionsByEventKey at hqn
    rw [List.mem_insertionSort, List.mem_filter] at hqn
    exact ⟨qn, hqn.1, hqn.2, by rw [hc, ha]; rfl⟩
  · intro h
    unfold getAllAnswersByEventKey
    rw [h]
    rfl
  · intro h
    unfold getAllAnswersByEventKey getAllQuestionsByEventKey
    have hfil : db.questions.filter (questionInRoom db eventKey) = [] := by
      rw [List.filter_eq_nil_iff]
      intro qn _
      rw [questionInRoom_eq_false_of_no_room db eventKey h qn]
      exact Bool.false_ne_true
    rw [hfil]
    rfl

/-- C3 witness: a bare question produces an all-empty bundle, and a key no
room carries produces the empty sequence. -/
theorem aggregation_empty_cases_witness :
    ((⟨1, "q1", [], []⟩ : Bundle) ∈ getAllAnswersByEventKey
      ⟨[⟨1, "k1", "room", "p"⟩], [⟨1, 10, "t", 1⟩], [⟨1, "q1", none, 1⟩], [], [],
       2, 2, 2, 1⟩ "k1") ∧
    getAllAnswersByEventKey
      ⟨[⟨1, "k1", "room", "p"⟩], [⟨1, 10, "t", 1⟩], [⟨1, "q1", none, 1⟩], [], [],
       2, 2, 2, 1⟩ "zz" = [] :=
  ⟨(aggregation_empty_cases
      ⟨[⟨1, "k1", "room", "p"⟩], [⟨1, 10, "t", 1⟩], [⟨1, "q1", none, 1⟩], [], [],
       2, 2, 2, 1⟩ "k1").1 ⟨1, "q1", none, 1⟩ (by decide) (by decide) (by decide),
   (aggregation_empty_cases
      ⟨[⟨1, "k1", "room", "p"⟩], [⟨1, 10, "t", 1⟩], [⟨1, "q1", none, 1⟩], [], [],
       2, 2, 2, 1⟩ "zz").2.2 (by decide)⟩

/-! ### C4 — event-key generation -/

/-- Whatever key the retry loop returns is one of the generated candidates
and collides with no existing room's `event_key`. -/
lemma generateKeyLoop_fresh (db : DB) (gen : Nat → String) :
    ∀ fuel i k, generateKeyLoop db gen i fuel = some k →
      (∃ j, k = gen j) ∧ ∀ r ∈ db.rooms, r.event_key ≠ k := by
  intro fuel
  induction fuel with
  | zero =>
    intro i k h
    exact absurd h (by simp [generateKeyLoop])
  | succ n ih =>
    intro i k h
    unfold generateKeyLoop at h
    by_cases hcol : (db.rooms.filter fun r => r.event_key == gen i).length > 0
    · rw [if_pos hcol] at h
      exact ih (i + 1) k h
    · rw [if_neg hcol] at h
      obtain rfl : gen i = k := Option.some.inj h
      refine ⟨⟨i, rfl⟩, fun r hr hk => hcol ?_⟩
      have hmem : r ∈ db.rooms.filter fun r => r.event_key == gen i :=
        List.mem_filter.mpr ⟨hr, beq_iff_eq.mpr hk⟩
      exact List.length_pos.mpr (List.ne_nil_of_mem hmem)

/-- C4: when every candidate the generator draws is an 8-character string
(as `uuidv4().slice(0, 8)` is) and `generateUniqueEventKey` returns a key,
that key has 8 characters and equals no existing room's `event_key`. -/
theorem generateUniqueEventKey_fresh (db : DB) (gen : Nat → String) (fuel : Nat)
    (k : String) (h8 : ∀ n, (gen n).length = 8)
    (h : generateUniqueEventKey db gen fuel = some k) :
    k.length = 8 ∧ ∀ r ∈ db.rooms, r.event_key ≠ k := by
  obtain ⟨⟨j, rfl⟩, hfresh⟩ := generateKeyLoop_fresh db gen fuel 0 k h
  exact ⟨h8 j, hfresh⟩

/-- C4 witness: the first candidate collides with the seeded room, the
retry is returned and is fresh. -/
theorem generateUniqueEventKey_fresh_witness :
    ("bbbbbbbb" : String).length = 8 ∧
      ∀ r ∈ ([⟨1, "aaaaaaaa", "room", "p"⟩] : List Room), r.event_key ≠ "bbbbbbbb" :=
  generateUniqueEventKey_fresh
    ⟨[⟨1, "aaaaaaaa", "room", "p"⟩], [], [], [], [], 2, 1, 1, 1⟩
    (fun n => match n with | 0 => "aaaaaaaa" | _ + 1 => "bbbbbbbb") 2 "bbbbbbbb"
    (by intro n; cases n <;> rfl) (by decide)

/-! ### C7 — answers are appended unconditionally -/

/-- C7: `createAnswer` appends one `AnswerEntry` row for any state — no
existence check on the question, no membership check of the label among the
question's choices, no deduplication — and repeated identical submissions
each add a row that `getAllAnswersByQuestion` (the aggregation's source of
answers) returns, in submission order. -/
theorem createAnswer_unconditional_append (db : DB) (qid : Nat) (pid lbl : String) :
    createAnswer db qid pid lbl = { db with answers := db.answers ++ [⟨qid, pid, lbl⟩] } ∧
    getAllAnswersByQuestion (createAnswer db qid pid lbl) qid =
      getAllAnswersByQuestion db qid ++ [⟨qid, pid, lbl⟩] ∧
    getAllAnswersByQuestion (createAnswer (createAnswer db qid pid lbl) qid pid lbl) qid =
      getAllAnswersByQuestion db qid ++ [⟨qid, pid, lbl⟩, ⟨qid, pid, lbl⟩] := by
  refine ⟨rfl, ?_, ?_⟩
  · unfold getAllAnswersByQuestion createAnswer
    simp [List.filter_append]
  · unfold getAllAnswersByQuestion createAnswer
    simp [List.filter_append]

/-! ### C8 — partial update of questions -/

/-- C8: updating a question's label with `correctAnswer` undefined rewrites
only `question_label` on the targeted row: ids, stored correct answers and
quiz links of every question row are unchanged, non-targeted rows are kept
verbatim, and every other table is untouched. -/
theorem updateQuestion_label_only (db : DB) (qid : Nat) (lbl : String) :
    (updateQuestion db qid lbl none).1.questions.map Question.question_id =
      db.questions.map Question.question_id ∧
    (updateQuestion db qid lbl none).1.questions.map Question.correct_answer =
      db.questions.map Question.correct_answer ∧
    (updateQuestion db qid lbl none).1.questions.map Question.quiz_id =
      db.questions.map Question.quiz_id ∧
    (∀ q ∈ db.questions, q.question_id = qid →
      { q with question_label := lbl } ∈ (updateQuestion db qid lbl none).1.questions) ∧
    (∀ q ∈ db.questions, q.question_id ≠ qid →
      q ∈ (updateQuestion db qid lbl none).1.questions) ∧
    (updateQuestion db qid lbl none).1.rooms = db.rooms ∧
    (updateQuestion db qid lbl none).1.quizzes = db.quizzes ∧
    (updateQuestion db qid lbl none).1.choices = db.choices ∧
    (updateQuestion db qid lbl none).1.answers = db.answers := by
  refine ⟨?_, ?_, ?_, ?_, ?_, rfl, rfl, rfl, rfl⟩
  · rw [show (updateQuestion db qid lbl none).1.questions = db.questions.map fun q =>
        if q.question_id == qid then { q with question_label := lbl } else q from rfl,
      List.map_map]
    apply List.map_congr_left
    intro q _
    by_cases h : q.question_id = qid <;> simp [h]
  · rw [show (updateQuestion db qid lbl none).1.questions = db.questions.map fun q =>
        if q.question_id == qid then { q with question_label := lbl } else q from rfl,
      List.map_map]
    apply List.map_congr_left
    intro q _
    by_cases h : q.question_id = qid <;> simp [h]
  · rw [show (updateQuestion db qid lbl none).1.questions = db.questions.map fun q =>
        if q.question_id == qid then { q with question_label := lbl } else q from rfl,
      List.map_map]
    apply List.map_congr_left
    intro q _
    by_cases h : q.question_id = qid <;> simp [h]
  · intro q hq hid
    have : { q with question_label := lbl } =
        (fun q : Question =>
          if q.question_id == qid then { q with question_label := lbl } else q) q := by
      simp [hid]
    rw [this]
    exact List.mem_map_of_mem _ hq
  · intro q hq hid
    have : q = (fun q : Question =>
        if q.question_id == qid then { q with question_label := lbl } else q) q := by
      simp [hid]
    rw [this]
    exact List.mem_map_of_mem _ hq

/-- C8 witness: the stored correct answer survives a label-only update. -/
theorem updateQuestion_label_only_witness :
    (⟨1, "new", some "4", 1⟩ : Question) ∈
      (updateQuestion ⟨[], [], [⟨1, "old", some "4", 1⟩], [], [], 1, 1, 2, 1⟩ 1 "new"
        none).1.questions :=
  (updateQuestion_label_only ⟨[], [], [⟨1, "old", some "4", 1⟩], [], [], 1, 1, 2, 1⟩ 1
      "new").2.2.2.1 ⟨1, "old", some "4", 1⟩ (by decide) (by decide)

/-! ### C10 — quiz updates overwrite both fields -/

/-- C10: `updateQuiz` always overwrites both `max_duration` and `title` of
the targeted quiz with the supplied values (there is no partial path), while
`quiz_id` and `room_id` of every quiz row, non-targeted rows, and all other
tables are unchanged. -/
theorem updateQuiz_overwrites_both (db : DB) (qid : Nat) (d : Int) (t : String) :
    (updateQuiz db qid d t).1.quizzes.map Quiz.quiz_id =
      db.quizzes.map Quiz.quiz_id ∧
    (updateQuiz db qid d t).1.quizzes.map Quiz.room_id =
      db.quizzes.map Quiz.room_id ∧
    (∀ q ∈ db.quizzes, q.quiz_id = qid →
      { q with max_duration := d, title := t } ∈ (updateQuiz db qid d t).1.quizzes) ∧
    (∀ q ∈ db.quizzes, q.quiz_id ≠ qid → q ∈ (updateQuiz db qid d t).1.quizzes) ∧
    (updateQuiz db qid d t).1.rooms = db.rooms ∧
    (updateQuiz db qid d t).1.questions = db.questions ∧
    (updateQuiz db qid d t).1.choices = db.choices ∧
    (updateQuiz db qid d t).1.answers = db.answers := by
  refine ⟨?_, ?_, ?_, ?_, rfl, rfl, rfl, rfl⟩
  · rw [show (updateQuiz db qid d t).1.quizzes = db.quizzes.map fun q =>
        if q.quiz_id == qid then { q with max_duration := d, title := t } else q from rfl,
      List.map_map]
    apply List.map_congr_left
    intro q _
    by_cases h : q.quiz_id = qid <;> simp [h]
  · rw [show (updateQuiz db qid d t).1.quizzes = db.quizzes.map fun q =>
        if q.quiz_id == qid then { q with max_duration := d, title := t } else q from rfl,
      List.map_map]
    apply List.map_congr_left
    intro q _
    by_cases h : q.quiz_id = qid <;> simp [h]
  · intro q hq hid
    have : { q with max_duration := d, title := t } =
        (fun q : Quiz =>
          if q.quiz_id == qid then { q with max_duration := d, title := t } else q) q := by
      simp [hid]
    rw [this]
    exact List.mem_map_of_mem _ hq
  · intro q hq hid
    have : q = (fun q : Quiz =>
        if q.quiz_id == qid then { q with max_duration := d, title := t } else q) q := by
      simp [hid]
    rw [this]
    exact List.mem_map_of_mem _ hq

/-- C10 witness: both fields of the targeted quiz are replaced. -/
theorem updateQuiz_overwrites_both_witness :
    (⟨1, 20, "new", 1⟩ : Quiz) ∈
      (updateQuiz ⟨[], [⟨1, 10, "old", 1⟩], [], [], [], 1, 2, 1, 1⟩ 1 20 "new").1.quizzes :=
  (updateQuiz_overwrites_both ⟨[], [⟨1, 10, "old", 1⟩], [], [], [], 1, 2, 1, 1⟩ 1 20
      "new").2.2.1 ⟨1, 10, "old", 1⟩ (by decide) (by decide)

/-! ### Helper lemmas for the insert-then-reread pattern -/

/-- `ORDER BY key DESC LIMIT 1` on a list holding a strictly greatest
element returns exactly that element. -/
lemma take_one_of_sorted_max {α : Type} (key : α → Nat) (l s : List α) (x : α)
    (hperm : List.Perm s l)
    (hsort : List.Pairwise (fun a b => key b ≤ key a) s)
    (hx : x ∈ l) (hmax : ∀ y ∈ l, key y ≤ key x)
    (huniq : ∀ y ∈ l, key y = key x → y = x) :
    s.take 1 = [x] := by
  cases s with
  | nil =>
    exact absurd (hperm.mem_iff.mpr hx) (List.not_mem_nil x)
  | cons a tail =>
    have hxs : x ∈ a :: tail := hperm.mem_iff.mpr hx
    have ha_l : a ∈ l := hperm.mem_iff.mp (List.mem_cons_self a tail)
    have hax : key a ≤ key x := hmax a ha_l
    have hxa : key x ≤ key a := by
      rcases List.mem_cons.mp hxs with rfl | hxt
      · exact Nat.le_refl _
      · exact List.rel_of_sorted_cons hsort x hxt
    rw [huniq a ha_l (Nat.le_antisymm hax hxa)]
    rfl

/-- A `question_id = n` filter over rows whose ids are all below `n` is
empty. -/
lemma filter_questionId_eq_nil {n : Nat} (cs : List Choice)
    (h : ∀ c ∈ cs, c.question_id < n) :
    cs.filter (fun c => c.question_id == n) = [] := by
  rw [List.filter_eq_nil_iff]
  intro c hc
  simp only [beq_iff_eq]
  exact Nat.ne_of_lt (h c hc)

/-- The state after `createQuestion`, independent of which `INSERT` branch
ran: the row is appended and the serial counter advances. -/
lemma createQuestion_state (db : DB) (lbl : String) (ca : Option String) (qzid : Nat) :
    (createQuestion db lbl ca qzid).1 =
      { db with questions := db.questions ++ [⟨db.nextQuestionId, lbl, ca, qzid⟩],
                nextQuestionId := db.nextQuestionId + 1 } := by
  cases ca <;> rfl

/-- The re-read inside `createQuestion` (`ORDER BY question_id DESC LIMIT 1`
within the quiz) returns exactly the inserted row whenever all pre-existing
question ids are below the serial counter. -/
lemma createQuestion_reread (db : DB) (lbl : String) (ca : Option String) (qzid : Nat)
    (hwf : ∀ q ∈ db.questions, q.question_id < db.nextQuestionId) :
    (createQuestion db lbl ca qzid).2 = [⟨db.nextQuestionId, lbl, ca, qzid⟩] := by
  have h2 : (createQuestion db lbl ca qzid).2 =
      (List.insertionSort qIdGE
        ((db.questions ++ [(⟨db.nextQuestionId, lbl, ca, qzid⟩ : Question)]).filter
          fun q => q.quiz_id == qzid)).take 1 := by
    cases ca <;> rfl
  rw [h2]
  apply take_one_of_sorted_max Question.question_id _ _ _
    (List.perm_insertionSort qIdGE _) (List.sorted_insertionSort qIdGE _)
  · rw [List.mem_filter]
    exact ⟨List.mem_append_right _ (List.mem_singleton.mpr rfl), beq_self_eq_true qzid⟩
  · intro y hy
    rw [List.mem_filter] at hy
    rcases List.mem_append.mp hy.1 with hl | hr
    · exact Nat.le_of_lt (hwf y hl)
    · rw [List.mem_singleton.mp hr]
  · intro y hy hkey
    rw [List.mem_filter] at hy
    rcases List.mem_append.mp hy.1 with hl | hr
    · exact absurd hkey (Nat.ne_of_lt (hwf y hl))
    · exact List.mem_singleton.mp hr

/-- The re-read inside `createQuiz` (`ORDER BY quiz_id DESC LIMIT 1` within
the room) returns exactly the inserted row whenever all pre-existing quiz
ids are below the serial counter. -/
lemma createQuiz_reread (db : DB) (d : Int) (t : String) (rid : Nat)
    (hwf : ∀ q ∈ db.quizzes, q.quiz_id < db.nextQuizId) :
    (createQuiz db d t rid).2 = [⟨db.nextQuizId, d, t, rid⟩] := by
  apply take_one_of_sorted_max Quiz.quiz_id _ _ _
    (List.perm_insertionSort quizIdGE _) (List.sorted_insertionSort quizIdGE _)
  · rw [List.mem_filter]
    exact ⟨List.mem_append_right _ (List.mem_singleton.mpr rfl), beq_self_eq_true rid⟩
  · intro y hy
    rw [List.mem_filter] at hy
    rcases List.mem_append.mp hy.1 with hl | hr
    · exact Nat.le_of_lt (hwf y hl)
    · rw [List.mem_singleton.mp hr]
  · intro y hy hkey
    rw [List.mem_filter] at hy
    rcases List.mem_append.mp hy.1 with hl | hr
    · exact absurd hkey (Nat.ne_of_lt (hwf y hl))
    · exact List.mem_singleton.mp hr

/-! ### C5 — question creation with and without choices -/

/-- C5: with labels `["A","B","C"]`, `createQuestionAndChoices` appends
exactly three `Choice` rows, one per label in order with consecutive serial
ids, all carrying the created question's id and all returned by
`getAllChoicesByQuestion`; with `choiceLabels` undefined it appends no
`Choice` row. -/
theorem createQuestionAndChoices_three_choices (db : DB) (lbl : String)
    (ca : Option String) (qzid : Nat)
    (hq : ∀ q ∈ db.questions, q.question_id < db.nextQuestionId)
    (hc : ∀ c ∈ db.choices, c.question_id < db.nextQuestionId) :
    (∃ db', createQuestionAndChoices db lbl ca qzid (some ["A", "B", "C"]) =
        some (db', [⟨db.nextQuestionId, lbl, ca, qzid⟩]) ∧
      db'.choices = db.choices ++
        [⟨db.nextChoiceId, "A", db.nextQuestionId⟩,
         ⟨db.nextChoiceId + 1, "B", db.nextQuestionId⟩,
         ⟨db.nextChoiceId + 2, "C", db.nextQuestionId⟩] ∧
      getAllChoicesByQuestion db' db.nextQuestionId =
        [⟨db.nextChoiceId, "A", db.nextQuestionId⟩,
         ⟨db.nextChoiceId + 1, "B", db.nextQuestionId⟩,
         ⟨db.nextChoiceId + 2, "C", db.nextQuestionId⟩] ∧
      (getAllChoicesByQuestion db' db.nextQuestionId).length = 3 ∧
      ∀ c ∈ getAllChoicesByQuestion db' db.nextQuestionId,
        c.question_id = db.nextQuestionId) ∧
    (∃ db'', createQuestionAndChoices db lbl ca qzid none =
        some (db'', [⟨db.nextQuestionId, lbl, ca, qzid⟩]) ∧
      db''.choices = db.choices) := by
  have hcq : createQuestion db lbl ca qzid =
      ({ db with questions := db.questions ++ [⟨db.nextQuestionId, lbl, ca, qzid⟩],
                 nextQuestionId := db.nextQuestionId + 1 },
       [⟨db.nextQuestionId, lbl, ca, qzid⟩]) := by
    have h : createQuestion db lbl ca qzid =
        ((createQuestion db lbl ca qzid).1, (createQuestion db lbl ca qzid).2) := rfl
    rw [h, createQuestion_state db lbl ca qzid, createQuestion_reread db lbl ca qzid hq]
  have hchoices :
      (createChoices
        { db with questions := db.questions ++ [⟨db.nextQuestionId, lbl, ca, qzid⟩],
                  nextQuestionId := db.nextQuestionId + 1 }
        db.nextQuestionId ["A", "B", "C"]).choices =
      db.choices ++
        [⟨db.nextChoiceId, "A", db.nextQuestionId⟩,
         ⟨db.nextChoiceId + 1, "B", db.nextQuestionId⟩,
         ⟨db.nextChoiceId + 2, "C", db.nextQuestionId⟩] := by
    simp [createChoices]
  have hget :
      getAllChoicesByQuestion
        (createChoices
          { db with questions := db.questions ++ [⟨db.nextQuestionId, lbl, ca, qzid⟩],
                    nextQuestionId := db.nextQuestionId + 1 }
          db.nextQuestionId ["A", "B", "C"]) db.nextQuestionId =
      [⟨db.nextChoiceId, "A", db.nextQuestionId⟩,
       ⟨db.nextChoiceId + 1, "B", db.nextQuestionId⟩,
       ⟨db.nextChoiceId + 2, "C", db.nextQuestionId⟩] := by
    unfold getAllChoicesByQuestion
    rw [hchoices, List.filter_append, filter_questionId_eq_nil db.choices hc]
    simp
  refine ⟨⟨createChoices
      { db with questions := db.questions ++ [⟨db.nextQuestionId, lbl, ca, qzid⟩],
                nextQuestionId := db.nextQuestionId + 1 }
      db.nextQuestionId ["A", "B", "C"], ?_, hchoices, hget, ?_, ?_⟩,
    ⟨{ db with questions := db.questions ++ [⟨db.nextQuestionId, lbl, ca, qzid⟩],
               nextQuestionId := db.nextQuestionId + 1 }, ?_, rfl⟩⟩
  · simp only [createQuestionAndChoices, hcq]
  · rw [hget]
    rfl
  · rw [hget]
    intro c hcm
    simp only [List.mem_cons, List.not_mem_nil, or_false] at hcm
    rcases hcm with rfl | rfl | rfl <;> rfl
  · simp only [createQuestionAndChoices, hcq]

/-- C5 witness: creating the question on an empty database with labels
`["A","B","C"]`. -/
theorem createQuestionAndChoices_three_choices_witness :
    (∃ db', createQuestionAndChoices ⟨[], [], [], [], [], 1, 1, 1, 1⟩ "2+2?" (some "4") 1
        (some ["A", "B", "C"]) = some (db', [⟨1, "2+2?", some "4", 1⟩]) ∧
      db'.choices = ([] : List Choice) ++ [⟨1, "A", 1⟩, ⟨2, "B", 1⟩, ⟨3, "C", 1⟩] ∧
      getAllChoicesByQuestion db' 1 = [⟨1, "A", 1⟩, ⟨2, "B", 1⟩, ⟨3, "C", 1⟩] ∧
      (getAllChoicesByQuestion db' 1).length = 3 ∧
      ∀ c ∈ getAllChoicesByQuestion db' 1, c.question_id = 1) ∧
    (∃ db'', createQuestionAndChoices ⟨[], [], [], [], [], 1, 1, 1, 1⟩ "2+2?" (some "4") 1
        none = some (db'', [⟨1, "2+2?", some "4", 1⟩]) ∧ db''.choices = []) :=
  createQuestionAndChoices_three_choices ⟨[], [], [], [], [], 1, 1, 1, 1⟩ "2+2?" (some "4")
    1 (by decide) (by decide)

/-! ### C6 — the insert-then-reread pattern -/

/-- The re-read that claim C6 attributes to `createRoom`: select the row
with the highest id in the parent scope (for a room, the whole table). -/
def claimedRoomReread (rooms : List Room) : List Room :=
  (List.insertionSort roomIdGE rooms).take 1

/-- C6 counterexample: `createRoom` re-reads by `event_key`, not by highest
id — inserting a second room under an already-used key returns both
matching rows, while a highest-id re-read would return only the new one. -/
theorem createRoom_reread_not_by_highest_id :
    (createRoom ⟨[⟨1, "k1", "r1", "p"⟩], [], [], [], [], 2, 1, 1, 1⟩ "k1" "r2" "p2").2 ≠
      claimedRoomReread
        (createRoom ⟨[⟨1, "k1", "r1", "p"⟩], [], [], [], [], 2, 1, 1, 1⟩ "k1" "r2"
          "p2").1.rooms := by
  decide

/-- C6 (amended): each creation operation inserts a row and then returns a
deterministic follow-up re-read — by highest id within the parent scope for
`createQuiz` and `createQuestion`, but by the supplied `event_key` (no
ordering, no limit) for `createRoom`; when the event key is fresh
(`createRoom`) resp. existing ids are below the serial counter
(`createQuiz`, `createQuestion`), the re-read is exactly the just-inserted
row. -/
theorem creation_insert_then_reread (db : DB) :
    (∀ k n p, (createRoom db k n p).1 =
        { db with rooms := db.rooms ++ [⟨db.nextRoomId, k, n, p⟩],
                  nextRoomId := db.nextRoomId + 1 } ∧
      (createRoom db k n p).2 = getRoomByEventKey (createRoom db k n p).1 k ∧
      ((∀ r ∈ db.rooms, r.event_key ≠ k) →
        (createRoom db k n p).2 = [⟨db.nextRoomId, k, n, p⟩])) ∧
    (∀ d t rid, (createQuiz db d t rid).1 =
        { db with quizzes := db.quizzes ++ [⟨db.nextQuizId, d, t, rid⟩],
                  nextQuizId := db.nextQuizId + 1 } ∧
      ((∀ q ∈ db.quizzes, q.quiz_id < db.nextQuizId) →
        (createQuiz db d t rid).2 = [⟨db.nextQuizId, d, t, rid⟩])) ∧
    (∀ lbl ca qzid, (createQuestion db lbl ca qzid).1 =
        { db with questions := db.questions ++ [⟨db.nextQuestionId, lbl, ca, qzid⟩],
                  nextQuestionId := db.nextQuestionId + 1 } ∧
      ((∀ q ∈ db.questions, q.question_id < db.nextQuestionId) →
        (createQuestion db lbl ca qzid).2 = [⟨db.nextQuestionId, lbl, ca, qzid⟩])) := by
  refine ⟨fun k n p => ⟨rfl, rfl, fun hfresh => ?_⟩,
    fun d t rid => ⟨rfl, createQuiz_reread db d t rid⟩,
    fun lbl ca qzid => ⟨createQuestion_state db lbl ca qzid,
      createQuestion_reread db lbl ca qzid⟩⟩
  show (db.rooms ++ [(⟨db.nextRoomId, k, n, p⟩ : Room)]).filter
      (fun r => r.event_key == k) = _
  rw [List.filter_append]
  have hnil : db.rooms.filter (fun r => r.event_key == k) = [] := by
    rw [List.filter_eq_nil_iff]
    intro r hr
    simp only [beq_iff_eq]
    exact hfresh r hr
  rw [hnil]
  simp

/-- C6 (amended) witness: creation on an empty database returns exactly the
inserted row for each of the three operations. -/
theorem creation_insert_then_reread_witness :
    (createRoom ⟨[], [], [], [], [], 1, 1, 1, 1⟩ "k" "n" "p").2 = [⟨1, "k", "n", "p"⟩] ∧
    (createQuiz ⟨[], [], [], [], [], 1, 1, 1, 1⟩ 10 "t" 1).2 = [⟨1, 10, "t", 1⟩] ∧
    (createQuestion ⟨[], [], [], [], [], 1, 1, 1, 1⟩ "q" none 1).2 = [⟨1, "q", none, 1⟩] :=
  ⟨((creation_insert_then_reread ⟨[], [], [], [], [], 1, 1, 1, 1⟩).1 "k" "n" "p").2.2
      (by decide),
   ((creation_insert_then_reread ⟨[], [], [], [], [], 1, 1, 1, 1⟩).2.1 10 "t" 1).2
      (by decide),
   ((creation_insert_then_reread ⟨[], [], [], [], [], 1, 1, 1, 1⟩).2.2 "q" none 1).2
      (by decide)⟩

/-! ### C9 — parameterization of query texts -/

/-- The texts of the per-label `INSERT`s of `createChoices` are one fixed
template repeated, independent of the labels. -/
lemma createChoicesCalls_texts (s q : String) (L : List String) :
    (createChoicesCalls s q L).map Prod.fst =
      List.replicate L.length
        ("INSERT INTO " ++ s ++ ".Choice (choice_label, question_id) VALUES ($1,$2);") := by
  induction L with
  | nil => rfl
  | cons a t ih =>
    simp only [createChoicesCalls, List.map_cons, List.map_map, List.length_cons,
      List.replicate_succ] at *
    exact congrArg _ ih

/-- C9 counterexample: the claim's sole-exception clause fails —
`getAllFromTable` also concatenates a caller-supplied value (the table
name) into the SQL text, so its text is not independent of its argument. -/
theorem getAllFromTable_text_depends_on_argument :
    getAllFromTableText "schema" "Room" ≠ getAllFromTableText "schema" "Quiz" := by
  decide

/-- C9 (amended): every content query passes caller-supplied values only as
parameters — two runs with different argument values send identical SQL
text, except that which fixed `INSERT`/`UPDATE` template a question
operation uses depends on whether a correct answer is supplied, and
`createChoices` repeats its template once per label.  Two caller-supplied
values do reach query text directly: the candidate token in the event-key
uniqueness check, and the table name in the debug helper `getAllFromTable`. -/
theorem query_texts_parameterized (s : String) :
    (∀ l₁ ca₁ q₁ l₂ ca₂ q₂, ca₁.isSome = ca₂.isSome →
      (createQuestionCalls s l₁ ca₁ q₁).map Prod.fst =
        (createQuestionCalls s l₂ ca₂ q₂).map Prod.fst) ∧
    (∀ q₁ L₁ q₂ L₂, L₁.length = L₂.length →
      (createChoicesCalls s q₁ L₁).map Prod.fst =
        (createChoicesCalls s q₂ L₂).map Prod.fst) ∧
    (∀ i₁ l₁ ca₁ i₂ l₂ ca₂, ca₁.isSome = ca₂.isSome →
      (updateQuestionCalls s i₁ l₁ ca₁).map Prod.fst =
        (updateQuestionCalls s i₂ l₂ ca₂).map Prod.fst) ∧
    (∀ a b, (getAllQuestionsByEventKeyCall s a).1 = (getAllQuestionsByEventKeyCall s b).1) ∧
    (∀ a b, (getAllChoicesByQuestionCall s a).1 = (getAllChoicesByQuestionCall s b).1) ∧
    (∀ a b, (getAllAnswersByQuestionCall s a).1 = (getAllAnswersByQuestionCall s b).1) ∧
    (∀ a₁ a₂ a₃ b₁ b₂ b₃, (createAnswerCall s a₁ a₂ a₃).1 = (createAnswerCall s b₁ b₂ b₃).1) ∧
    (∀ a₁ a₂ a₃ b₁ b₂ b₃,
      (createRoomCalls s a₁ a₂ a₃).map Prod.fst = (createRoomCalls s b₁ b₂ b₃).map Prod.fst) ∧
    (∀ a₁ a₂ a₃ b₁ b₂ b₃,
      (createQuizCalls s a₁ a₂ a₃).map Prod.fst = (createQuizCalls s b₁ b₂ b₃).map Prod.fst) ∧
    (∀ a₁ a₂ a₃ b₁ b₂ b₃,
      (updateQuizCalls s a₁ a₂ a₃).map Prod.fst = (updateQuizCalls s b₁ b₂ b₃).map Prod.fst) ∧
    (∀ a b, (getRoomByEventKeyCall s a).1 = (getRoomByEventKeyCall s b).1) ∧
    (∀ a b, (getAllRoomsByPresenterCall s a).1 = (getAllRoomsByPresenterCall s b).1) ∧
    (∀ a b, (getAllQuizzesByEventKeyCall s a).1 = (getAllQuizzesByEventKeyCall s b).1) ∧
    (∀ a b, (getAllAnswersByQuizCall s a).1 = (getAllAnswersByQuizCall s b).1) ∧
    (∃ k₁ k₂, uniquenessCheckText s k₁ ≠ uniquenessCheckText s k₂) ∧
    (∃ t₁ t₂, getAllFromTableText s t₁ ≠ getAllFromTableText s t₂) := by
  refine ⟨?_, ?_, ?_, fun a b => rfl, fun a b => rfl, fun a b => rfl,
    fun a₁ a₂ a₃ b₁ b₂ b₃ => rfl, fun a₁ a₂ a₃ b₁ b₂ b₃ => rfl,
    fun a₁ a₂ a₃ b₁ b₂ b₃ => rfl, fun a₁ a₂ a₃ b₁ b₂ b₃ => rfl,
    fun a b => rfl, fun a b => rfl, fun a b => rfl, fun a b => rfl, ?_, ?_⟩
  · intro l₁ ca₁ q₁ l₂ ca₂ q₂ hca
    cases ca₁ <;> cases ca₂ <;> simp at hca <;> rfl
  · intro q₁ L₁ q₂ L₂ hlen
    rw [createChoicesCalls_texts, createChoicesCalls_texts, hlen]
  · intro i₁ l₁ ca₁ i₂ l₂ ca₂ hca
    cases ca₁ <;> cases ca₂ <;> simp at hca <;> rfl
  · refine ⟨"a", "bb", fun h => ?_⟩
    have hlen := congrArg String.length h
    simp only [uniquenessCheckText, String.length_append,
      show ("a" : String).length = 1 from rfl,
      show ("bb" : String).length = 2 from rfl] at hlen
    omega
  · refine ⟨"a", "bb", fun h => ?_⟩
    have hlen := congrArg String.length h
    simp only [getAllFromTableText, String.length_append,
      show ("a" : String).length = 1 from rfl,
      show ("bb" : String).length = 2 from rfl] at hlen
    omega

/-- C9 (amended) witness: the question `INSERT` template and the repeated
choice template coincide across two different argument vectors. -/
theorem query_texts_parameterized_witness :
    (createQuestionCalls "s" "l1" (some "4") "1").map Prod.fst =
      (createQuestionCalls "s" "l2" (some "7") "2").map Prod.fst ∧
    (createChoicesCalls "s" "1" ["A", "B"]).map Prod.fst =
      (createChoicesCalls "s" "2" ["X", "Y"]).map Prod.fst :=
  ⟨(query_texts_parameterized "s").1 "l1" (some "4") "1" "l2" (some "7") "2" rfl,
   (query_texts_parameterized "s").2.1 "1" ["A", "B"] "2" ["X", "Y"] rfl⟩

end QuizDB
